import Mathlib

set_option linter.unusedVariables false

/-!
Shallow embedding of the story-generation cloud function (src/main.py) and
proofs about its request/response contract.

Python runtime values that can appear in request bodies, Firestore
documents and response payloads are modelled by the inductive type
PyVal.  Machine-level concerns (floats, unicode normalisation) are out
of scope; JSON numbers are modelled as integers.
-/

/-- Naive datetime, as produced by the Firestore client
(DatetimeWithNanoseconds) or the standard library (datetime). -/
structure DT where
  year : Nat
  month : Nat
  day : Nat
  hour : Nat
  minute : Nat
  second : Nat
  micro : Nat
deriving DecidableEq

/-- Left-pad a decimal rendering with zeros to width w. -/
def padNum (w n : Nat) : String :=
  let s := toString n
  String.mk (List.replicate (w - s.length) '0') ++ s

/-- datetime.isoformat(): YYYY-MM-DDTHH:MM:SS, with a .ffffff suffix
only when the microsecond field is nonzero. -/
def DT.isoformat (d : DT) : String :=
  padNum 4 d.year ++ "-" ++ padNum 2 d.month ++ "-" ++ padNum 2 d.day ++ "T" ++
    padNum 2 d.hour ++ ":" ++ padNum 2 d.minute ++ ":" ++ padNum 2 d.second ++
    (if d.micro = 0 then "" else "." ++ padNum 6 d.micro)

/-- str(datetime): same as isoformat but with a space separator. -/
def DT.pyFormat (d : DT) : String :=
  padNum 4 d.year ++ "-" ++ padNum 2 d.month ++ "-" ++ padNum 2 d.day ++ " " ++
    padNum 2 d.hour ++ ":" ++ padNum 2 d.minute ++ ":" ++ padNum 2 d.second ++
    (if d.micro = 0 then "" else "." ++ padNum 6 d.micro)

/-- Python values flowing through the handler: JSON-like data, the two
datetime flavours the serializer special-cases, and opaque objects
(carrying their str() rendering). -/
inductive PyVal where
  | null
  | bool (b : Bool)
  | int (n : Int)
  | str (s : String)
  | list (xs : List PyVal)
  | dict (fields : List (String × PyVal))
  | dtNanos (d : DT)
  | dt (d : DT)
  | obj (s : String)

/-- A Firestore document / Python dict body: ordered association list. -/
abbrev Doc := List (String × PyVal)

/-- First-occurrence lookup in a Python dict (dicts built through
alistInsert never hold duplicate keys, so this is dict indexing). -/
def alookup (d : Doc) (k : String) : Option PyVal :=
  match d with
  | [] => Option.none
  | (k2, v2) :: t => if k2 = k then some v2 else alookup t k

/-- Python dict assignment d[k] = v: replace the existing entry in
place, else append. -/
def alistInsert (d : Doc) (k : String) (v : PyVal) : Doc :=
  match d with
  | [] => [(k, v)]
  | (k2, v2) :: t => if k2 = k then (k, v) :: t else (k2, v2) :: alistInsert t k v

/-- dict.get(k, default). -/
def pyDictGet (d : Doc) (k : String) (dflt : PyVal) : PyVal :=
  (alookup d k).getD dflt

/-- Python truthiness test (used by "if not x" checks in the handler). -/
def pyFalsy : PyVal → Bool
  | PyVal.null => true
  | PyVal.bool b => !b
  | PyVal.int n => n == 0
  | PyVal.str s => s == ""
  | PyVal.list xs => xs.isEmpty
  | PyVal.dict fs => fs.isEmpty
  | _ => false

/-- Python type names, for exception messages. -/
def pyTypeName : PyVal → String
  | PyVal.null => "NoneType"
  | PyVal.bool _ => "bool"
  | PyVal.int _ => "int"
  | PyVal.str _ => "str"
  | PyVal.list _ => "list"
  | PyVal.dict _ => "dict"
  | PyVal.dtNanos _ => "DatetimeWithNanoseconds"
  | PyVal.dt _ => "datetime"
  | PyVal.obj _ => "object"

/-- str(AttributeError) raised by v.attr on a value lacking attr. -/
def attrError (v : PyVal) (attr : String) : String :=
  "\x27" ++ pyTypeName v ++ "\x27 object has no attribute \x27" ++ attr ++ "\x27"

/-- Python whitespace stripped by str.strip() (ASCII subset). -/
def isPySpace (c : Char) : Bool :=
  c = ' ' || c = '\t' || c = '\n' || c = '\r' || c = '\x0b' || c = '\x0c'

/-- str.strip(): drop whitespace from both ends. -/
def pyStrip (s : String) : String :=
  String.mk (((s.data.dropWhile isPySpace).reverse.dropWhile isPySpace).reverse)

/-- Hex digit for \uXXXX escapes. -/
def hexDigitChar (n : Nat) : Char :=
  if n < 10 then Char.ofNat (48 + n) else Char.ofNat (87 + n)

/-- Four-digit hex rendering. -/
def hex4 (n : Nat) : String :=
  String.mk [hexDigitChar (n / 4096 % 16), hexDigitChar (n / 256 % 16),
    hexDigitChar (n / 16 % 16), hexDigitChar (n % 16)]

/-- json.dumps escaping of one character (ensure_ascii default). -/
def jsonEscapeChar (c : Char) : String :=
  if c = '"' then "\\\""
  else if c = '\\' then "\\\\"
  else if c = '\n' then "\\n"
  else if c = '\t' then "\\t"
  else if c = '\r' then "\\r"
  else if c = '\x08' then "\\b"
  else if c = '\x0c' then "\\f"
  else if c.toNat < 32 || 126 < c.toNat then "\\u" ++ hex4 (c.toNat % 65536)
  else String.mk [c]

/-- json.dumps escaping of a string body. -/
def jsonEscape (s : String) : String :=
  String.join (s.data.map jsonEscapeChar)

/-- A JSON string literal. -/
def jsonStr (s : String) : String :=
  "\"" ++ jsonEscape s ++ "\""

mutual

/-- json.dumps with the default= hook of safe_json_dumps: timestamps
and datetimes render as their isoformat, any other non-serializable
value as its str(). -/
def dumpsV : PyVal → String
  | PyVal.null => "null"
  | PyVal.bool b => if b then "true" else "false"
  | PyVal.int n => toString n
  | PyVal.str s => jsonStr s
  | PyVal.list xs => "[" ++ String.intercalate ", " (dumpsL xs) ++ "]"
  | PyVal.dict fs => "\x7b" ++ String.intercalate ", " (dumpsF fs) ++ "\x7d"
  | PyVal.dtNanos d => jsonStr d.isoformat
  | PyVal.dt d => jsonStr d.isoformat
  | PyVal.obj s => jsonStr s

def dumpsL : List PyVal → List String
  | [] => []
  | v :: t => dumpsV v :: dumpsL t

def dumpsF : List (String × PyVal) → List String
  | [] => []
  | (k, v) :: t => (jsonStr k ++ ": " ++ dumpsV v) :: dumpsF t

end

/-- safe_json_dumps from src/main.py. -/
def safe_json_dumps (data : PyVal) : String := dumpsV data

mutual

/-- Python repr() of the values a parsed JSON body can hold. -/
def pyReprV : PyVal → String
  | PyVal.null => "None"
  | PyVal.bool b => if b then "True" else "False"
  | PyVal.int n => toString n
  | PyVal.str s => "\x27" ++ s ++ "\x27"
  | PyVal.list xs => "[" ++ String.intercalate ", " (pyReprL xs) ++ "]"
  | PyVal.dict fs => "\x7b" ++ String.intercalate ", " (pyReprF fs) ++ "\x7d"
  | PyVal.dtNanos d => "DatetimeWithNanoseconds(" ++ d.pyFormat ++ ")"
  | PyVal.dt d => "datetime(" ++ d.pyFormat ++ ")"
  | PyVal.obj s => s

def pyReprL : List PyVal → List String
  | [] => []
  | v :: t => pyReprV v :: pyReprL t

def pyReprF : List (String × PyVal) → List String
  | [] => []
  | (k, v) :: t => ("\x27" ++ k ++ "\x27: " ++ pyReprV v) :: pyReprF t

end

/-- Python str(), as interpolated by f-strings. -/
def pyStr : PyVal → String
  | PyVal.str s => s
  | PyVal.dtNanos d => d.pyFormat
  | PyVal.dt d => d.pyFormat
  | PyVal.obj s => s
  | v => pyReprV v

/-- JSON whitespace. -/
def jsonSkipWs (cs : List Char) : List Char :=
  cs.dropWhile (fun c => c = ' ' || c = '\t' || c = '\n' || c = '\r')

/-- Hex digit value. -/
def hexVal? (c : Char) : Option Nat :=
  if '0' ≤ c ∧ c ≤ '9' then some (c.toNat - 48)
  else if 'a' ≤ c ∧ c ≤ 'f' then some (c.toNat - 87)
  else if 'A' ≤ c ∧ c ≤ 'F' then some (c.toNat - 55)
  else Option.none

/-- JSON string body: characters up to the closing quote, with the
standard escapes; raw control characters are rejected (strict mode). -/
def parseJStrChars : List Char → Option (List Char × List Char)
  | [] => Option.none
  | '"' :: rest => some ([], rest)
  | '\\' :: 'n' :: r => (parseJStrChars r).map (fun p => ('\n' :: p.1, p.2))
  | '\\' :: 't' :: r => (parseJStrChars r).map (fun p => ('\t' :: p.1, p.2))
  | '\\' :: 'r' :: r => (parseJStrChars r).map (fun p => ('\r' :: p.1, p.2))
  | '\\' :: 'b' :: r => (parseJStrChars r).map (fun p => ('\x08' :: p.1, p.2))
  | '\\' :: 'f' :: r => (parseJStrChars r).map (fun p => ('\x0c' :: p.1, p.2))
  | '\\' :: '/' :: r => (parseJStrChars r).map (fun p => ('/' :: p.1, p.2))
  | '\\' :: '"' :: r => (parseJStrChars r).map (fun p => ('"' :: p.1, p.2))
  | '\\' :: '\\' :: r => (parseJStrChars r).map (fun p => ('\\' :: p.1, p.2))
  | '\\' :: 'u' :: a :: b :: c :: d :: r =>
      match hexVal? a, hexVal? b, hexVal? c, hexVal? d with
      | some x, some y, some z, some u =>
          (parseJStrChars r).map
            (fun p => (Char.ofNat (4096 * x + 256 * y + 16 * z + u) :: p.1, p.2))
      | _, _, _, _ => Option.none
  | '\\' :: _ => Option.none
  | c :: r =>
      if c.toNat < 32 then Option.none
      else (parseJStrChars r).map (fun p => (c :: p.1, p.2))

/-- Decimal digits to a Nat. -/
def digitsToNat (ds : List Char) : Nat :=
  ds.foldl (fun a c => a * 10 + (c.toNat - 48)) 0

/-- JSON integer literal; numbers with a fractional or exponent part
are outside this model and rejected. -/
def parseJNum (cs : List Char) : Option (Int × List Char) :=
  match cs with
  | '-' :: rest =>
      let digits := rest.takeWhile Char.isDigit
      let r := rest.dropWhile Char.isDigit
      if digits.isEmpty then Option.none
      else match r with
        | '.' :: _ => Option.none
        | 'e' :: _ => Option.none
        | 'E' :: _ => Option.none
        | _ => some (-(digitsToNat digits : Int), r)
  | _ =>
      let digits := cs.takeWhile Char.isDigit
      let r := cs.dropWhile Char.isDigit
      if digits.isEmpty then Option.none
      else match r with
        | '.' :: _ => Option.none
        | 'e' :: _ => Option.none
        | 'E' :: _ => Option.none
        | _ => some ((digitsToNat digits : Int), r)

mutual

/-- Fueled recursive-descent JSON value parser (model of json.loads). -/
def parseJVal : Nat → List Char → Option (PyVal × List Char)
  | 0, _ => Option.none
  | Nat.succ fuel, cs =>
    match jsonSkipWs cs with
    | 'n' :: 'u' :: 'l' :: 'l' :: r => some (PyVal.null, r)
    | 't' :: 'r' :: 'u' :: 'e' :: r => some (PyVal.bool true, r)
    | 'f' :: 'a' :: 'l' :: 's' :: 'e' :: r => some (PyVal.bool false, r)
    | '"' :: r => (parseJStrChars r).map (fun p => (PyVal.str (String.mk p.1), p.2))
    | '[' :: r =>
        match jsonSkipWs r with
        | ']' :: r2 => some (PyVal.list [], r2)
        | r2 => (parseJItems fuel r2).map (fun p => (PyVal.list p.1, p.2))
    | '\x7b' :: r =>
        match jsonSkipWs r with
        | '\x7d' :: r2 => some (PyVal.dict [], r2)
        | r2 =>
            (parseJFields fuel r2).map
              (fun p => (PyVal.dict (p.1.foldl (fun acc kv => alistInsert acc kv.1 kv.2) []), p.2))
    | cs2 => (parseJNum cs2).map (fun p => (PyVal.int p.1, p.2))

/-- Comma-separated array items up to the closing bracket. -/
def parseJItems : Nat → List Char → Option (List PyVal × List Char)
  | 0, _ => Option.none
  | Nat.succ fuel, cs =>
    match parseJVal fuel cs with
    | Option.none => Option.none
    | some (v, r) =>
      match jsonSkipWs r with
      | ',' :: r2 => (parseJItems fuel r2).map (fun p => (v :: p.1, p.2))
      | ']' :: r2 => some ([v], r2)
      | _ => Option.none

/-- Comma-separated object members up to the closing brace. -/
def parseJFields : Nat → List Char → Option (List (String × PyVal) × List Char)
  | 0, _ => Option.none
  | Nat.succ fuel, cs =>
    match jsonSkipWs cs with
    | '"' :: r =>
      match parseJStrChars r with
      | Option.none => Option.none
      | some (kcs, r2) =>
        match jsonSkipWs r2 with
        | ':' :: r3 =>
          match parseJVal fuel r3 with
          | Option.none => Option.none
          | some (v, r4) =>
            match jsonSkipWs r4 with
            | ',' :: r5 =>
                (parseJFields fuel r5).map (fun p => ((String.mk kcs, v) :: p.1, p.2))
            | '\x7d' :: r5 => some ([(String.mk kcs, v)], r5)
            | _ => Option.none
        | _ => Option.none
    | _ => Option.none

end

/-- json.loads: parse the whole text as one JSON value (model; floats
and a few lexical corners of real JSON are not covered). -/
def json_loads (s : String) : Option PyVal :=
  match parseJVal (2 * s.length + 4) s.data with
  | some (v, rest) => if (jsonSkipWs rest).isEmpty then some v else Option.none
  | Option.none => Option.none

/-!  The external world: Firestore contents (documents keyed by the
app/user path, document id fixed to story_prefs), the server clock for
SERVER_TIMESTAMP, injectable read/write failures, and the generative
service as an oracle from (model name, prompt) to text or an exception
message.  External calls are recorded as events so that theorems can
speak about which calls a request performs. -/

/-- Firestore contents: story_prefs document per (app_id, user_id). -/
abbrev Store := List ((String × String) × Doc)

def storeLookup (st : Store) (app_id user_id : String) : Option Doc :=
  match st with
  | [] => Option.none
  | ((a, u), d) :: t =>
      if a = app_id ∧ u = user_id then some d else storeLookup t app_id user_id

def storeSet (st : Store) (app_id user_id : String) (d : Doc) : Store :=
  match st with
  | [] => [((app_id, user_id), d)]
  | ((a, u), d2) :: t =>
      if a = app_id ∧ u = user_id then ((a, u), d) :: t
      else ((a, u), d2) :: storeSet t app_id user_id d

structure World where
  store : Store
  now : DT
  getErr : Option String
  setErr : Option String
  gen : String → String → Except String String

/-- One external call performed by the handler. -/
inductive Event where
  | dbGet (app_id user_id : String)
  | dbSet (app_id user_id : String)
  | genCall (model : String)
deriving DecidableEq

def ALLOWED_ORIGINS : List String :=
  ["http://localhost:5173", "http://localhost:5174", "http://localhost:5175"]

structure Headers where
  allowOrigin : String
  allowMethods : String
  allowHeaders : String
  maxAge : String
deriving DecidableEq

def baseHeaders : Headers :=
  { allowOrigin := "*"
    allowMethods := "GET, POST, OPTIONS"
    allowHeaders := "Content-Type, X-Requested-With, Authorization"
    maxAge := "3600" }

/-- The headers dict built at the top of generate_story_function: the
wildcard default, overwritten with the echoed Origin when it is truthy
and in the allow-list. -/
def corsHeaders (origin : Option String) : Headers :=
  match origin with
  | some o =>
      if o ≠ "" ∧ (o ∈ ALLOWED_ORIGINS ∨ "*" ∈ ALLOWED_ORIGINS) then
        { baseHeaders with allowOrigin := o }
      else baseHeaders
  | Option.none => baseHeaders

/-- get_user_preferences from src/main.py: read the story_prefs
document, empty dict when absent; a Firestore failure raises. -/
def get_user_preferences (w : World) (user_id app_id : String) : Except String Doc :=
  match w.getErr with
  | some m => Except.error m
  | Option.none => Except.ok ((storeLookup w.store app_id user_id).getD [])

/-- Firestore set(..., merge=True), field-level merge per the spec of
the store adapter: supplied fields overwrite, others persist, the
document is created when absent. -/
def mergeDoc (old new : Doc) : Doc :=
  new.foldl (fun acc kv => alistInsert acc kv.1 kv.2) old

/-- update_user_preferences from src/main.py: merge update_data plus a
server-assigned last_updated timestamp into story_prefs (upsert); a
Firestore failure raises. -/
def update_user_preferences (w : World) (user_id app_id : String) (update_data : Doc) :
    Except String World :=
  match w.setErr with
  | some m => Except.error m
  | Option.none =>
      let written := alistInsert update_data "last_updated" (PyVal.dtNanos w.now)
      let old := (storeLookup w.store app_id user_id).getD []
      Except.ok { w with store := storeSet w.store app_id user_id (mergeDoc old written) }

/-- The planner prompt f-string of agent_plan. -/
def planner_prompt (prefs : Doc) (keywords : String) : String :=
  "\n    You are a creative story planning agent.\n    User preferences: " ++
    safe_json_dumps (PyVal.dict prefs) ++ "\n    Keywords: " ++ keywords ++
    "\n\n    Based on these, plan the best story approach.\n    Return JSON with:\n" ++
    "    - tone: the tone to use (\"humorous\", \"adventurous\", \"positive\", \"neutral\", etc.)\n" ++
    "    - plot_outline: 2-4 sentences describing the story\x27s main arc\n" ++
    "    - length_in_words: integer (between 100 and 200)\n    "

/-- The fallback plan built when the planner text is not JSON. -/
def fallback_plan (prefs : Doc) (keywords : String) : PyVal :=
  PyVal.dict
    [("tone", pyDictGet prefs "preferred_tone" (PyVal.str "neutral")),
     ("plot_outline", PyVal.str ("Story based on: " ++ keywords)),
     ("length_in_words", PyVal.int 150)]

/-- agent_plan from src/main.py: read preferences, ask the planner
model, parse its text strictly as JSON, fall back on parse failure. -/
def agent_plan (w : World) (user_id app_id keywords : String) :
    Except String PyVal × List Event :=
  match get_user_preferences w user_id app_id with
  | Except.error m => (Except.error m, [Event.dbGet app_id user_id])
  | Except.ok prefs =>
      match w.gen "gemini-1.5-pro" (planner_prompt prefs keywords) with
      | Except.error m =>
          (Except.error m, [Event.dbGet app_id user_id, Event.genCall "gemini-1.5-pro"])
      | Except.ok text =>
          match json_loads text with
          | some plan =>
              (Except.ok plan, [Event.dbGet app_id user_id, Event.genCall "gemini-1.5-pro"])
          | Option.none =>
              (Except.ok (fallback_plan prefs keywords),
               [Event.dbGet app_id user_id, Event.genCall "gemini-1.5-pro"])

/-- Python subscript v[k] with a string key: KeyError on a dict miss,
TypeError on non-dicts (str(e) texts approximated). -/
def pySubscript (v : PyVal) (k : String) : Except String PyVal :=
  match v with
  | PyVal.dict d =>
      match alookup d k with
      | some x => Except.ok x
      | Option.none => Except.error ("\x27" ++ k ++ "\x27")
  | PyVal.str _ => Except.error "string indices must be integers"
  | PyVal.list _ => Except.error "list indices must be integers or slices, not str"
  | other => Except.error ("\x27" ++ pyTypeName other ++ "\x27 object is not subscriptable")

/-- The executor prompt f-string of generate_story_from_plan. -/
def execution_prompt (lv tv ov : PyVal) : String :=
  "\n    Write a " ++ pyStr lv ++ "-word story.\n    Tone: " ++ pyStr tv ++
    "\n    Plot outline: " ++ pyStr ov ++
    "\n    Ensure it\x27s engaging, coherent, and tailored to the tone.\n    "

/-- generate_story_from_plan from src/main.py: subscript the plan for
its three fields (raising on a malformed plan), ask the executor
model, return its text verbatim. -/
def generate_story_from_plan (w : World) (plan : PyVal) :
    Except String String × List Event :=
  match pySubscript plan "length_in_words" with
  | Except.error m => (Except.error m, [])
  | Except.ok lv =>
      match pySubscript plan "tone" with
      | Except.error m => (Except.error m, [])
      | Except.ok tv =>
          match pySubscript plan "plot_outline" with
          | Except.error m => (Except.error m, [])
          | Except.ok ov =>
              match w.gen "gemini-1.5-flash" (execution_prompt lv tv ov) with
              | Except.error m => (Except.error m, [Event.genCall "gemini-1.5-flash"])
              | Except.ok s => (Except.ok s, [Event.genCall "gemini-1.5-flash"])

/-- counts.get(feedback_type, 0) + 1: int (and bool) add, TypeError
otherwise. -/
def pyPlusOne (v : PyVal) : Except String Int :=
  match v with
  | PyVal.int n => Except.ok (n + 1)
  | PyVal.bool b => Except.ok (if b then 2 else 1)
  | other =>
      Except.error
        ("unsupported operand type(s) for +: \x27" ++ pyTypeName other ++ "\x27 and \x27int\x27")

/-- The body of the try block of generate_story_function: feedback
recording, the keywords check, and the plan/generate/persist pipeline.
Returns the response payload and status on a normal return, or the
message of the exception that the top-level handler will catch. -/
def tryBlock (w : World) (keywords user_s app_s : String) (feedback_type : PyVal) :
    Except String (PyVal × Nat) × World × List Event :=
  if pyFalsy feedback_type = false then
    match feedback_type with
    | PyVal.str ft =>
        match get_user_preferences w user_s app_s with
        | Except.error m => (Except.error m, w, [Event.dbGet app_s user_s])
        | Except.ok prefs =>
            match pyDictGet prefs "feedback_counts" (PyVal.dict []) with
            | PyVal.dict counts =>
                match pyPlusOne ((alookup counts ft).getD (PyVal.int 0)) with
                | Except.error m => (Except.error m, w, [Event.dbGet app_s user_s])
                | Except.ok n =>
                    match update_user_preferences w user_s app_s
                        [("feedback_counts", PyVal.dict (alistInsert counts ft (PyVal.int n)))] with
                    | Except.error m => (Except.error m, w, [Event.dbGet app_s user_s])
                    | Except.ok w2 =>
                        (Except.ok
                          (PyVal.dict [("message", PyVal.str ("Feedback " ++ ft ++ " processed."))], 200),
                         w2, [Event.dbGet app_s user_s, Event.dbSet app_s user_s])
            | fcv => (Except.error (attrError fcv "get"), w, [Event.dbGet app_s user_s])
    | _ =>
        match get_user_preferences w user_s app_s with
        | Except.error m => (Except.error m, w, [Event.dbGet app_s user_s])
        | Except.ok _ =>
            -- a non-string truthy feedbackType reaches the Firestore
            -- write with a non-string map key, which the client rejects
            (Except.error "Invalid Firestore map key", w, [Event.dbGet app_s user_s])
  else if keywords = "" then
    (Except.ok (PyVal.dict [("error", PyVal.str "Missing keywords for story generation")], 400),
     w, [])
  else
    match agent_plan w user_s app_s keywords with
    | (Except.error m, ev) => (Except.error m, w, ev)
    | (Except.ok plan, ev1) =>
        match generate_story_from_plan w plan with
        | (Except.error m, ev2) => (Except.error m, w, ev1 ++ ev2)
        | (Except.ok story, ev2) =>
            match plan with
            | PyVal.dict pf =>
                match update_user_preferences w user_s app_s
                    [("preferred_tone", pyDictGet pf "tone" (PyVal.str "neutral")),
                     ("last_keywords", PyVal.str keywords),
                     ("last_plan", plan)] with
                | Except.error m => (Except.error m, w, ev1 ++ ev2)
                | Except.ok w2 =>
                    (Except.ok (PyVal.dict [("plan", plan), ("story", PyVal.str story)], 200),
                     w2, ev1 ++ ev2 ++ [Event.dbSet app_s user_s])
            | _ => (Except.error (attrError plan "get"), w, ev1 ++ ev2)

/-- Outcome of one invocation: a (body, status, headers) response, or
an exception escaping the handler (raised outside its try block). -/
inductive HResult where
  | resp (body : String) (status : Nat) (headers : Headers)
  | crash (msg : String)
deriving DecidableEq

structure Request where
  method : String
  origin : Option String
  body : Option PyVal

/-- A serialized error payload. -/
def errBody (msg : String) : String :=
  safe_json_dumps (PyVal.dict [("error", PyVal.str msg)])

/-- generate_story_function from src/main.py: CORS headers, the
OPTIONS short-circuit, body and field validation, then the try block
with its top-level exception-to-500 guard.  The request body is the
result of request.get_json(silent=True); None stands for a missing or
unparseable body. -/
def generate_story_function (w : World) (req : Request) : HResult × World × List Event :=
  let headers := corsHeaders req.origin
  if req.method = "OPTIONS" then
    (HResult.resp "" 204 headers, w, [])
  else
    match req.body with
    | Option.none =>
        (HResult.resp (errBody "Invalid JSON or missing request body") 400 headers, w, [])
    | some bodyv =>
        if pyFalsy bodyv then
          (HResult.resp (errBody "Invalid JSON or missing request body") 400 headers, w, [])
        else
          match bodyv with
          | PyVal.dict d =>
              match pyDictGet d "keywords" (PyVal.str "") with
              | PyVal.str ks =>
                  let keywords := pyStrip ks
                  let user_id := pyDictGet d "userId" PyVal.null
                  let app_id := pyDictGet d "appId" PyVal.null
                  let feedback_type := pyDictGet d "feedbackType" PyVal.null
                  if pyFalsy user_id then
                    (HResult.resp (errBody "Missing userId") 400 headers, w, [])
                  else if pyFalsy app_id then
                    (HResult.resp (errBody "Missing appId") 400 headers, w, [])
                  else
                    match tryBlock w keywords (pyStr user_id) (pyStr app_id) feedback_type with
                    | (Except.ok (payload, status), w2, ev) =>
                        (HResult.resp (safe_json_dumps payload) status headers, w2, ev)
                    | (Except.error m, w2, ev) =>
                        (HResult.resp (errBody m) 500 headers, w2, ev)
              | kv => (HResult.crash (attrError kv "strip"), w, [])
          | _ => (HResult.crash (attrError bodyv "get"), w, [])

/-- Sequential invocations of the function, threading the store. -/
def runN (req : Request) : Nat → World → World
  | 0, w => w
  | Nat.succ n, w => runN req n (generate_story_function w req).2.1

/-- The story_prefs document currently stored for (app_id, user_id),
empty when absent. -/
def docAt (w : World) (app_id user_id : String) : Doc :=
  (storeLookup w.store app_id user_id).getD []

/-- The stored feedback count entry for feedback type t. -/
def countValAt (w : World) (app_id user_id t : String) : Option PyVal :=
  match alookup (docAt w app_id user_id) "feedback_counts" with
  | some (PyVal.dict c) => alookup c t
  | _ => Option.none

/-- The stored feedback count for t, an absent entry read as 0. -/
def countIntAt (w : World) (app_id user_id t : String) : Int :=
  match countValAt w app_id user_id t with
  | some (PyVal.int n) => n
  | _ => 0

/-- The stored feedback_counts field is well typed at key t: absent,
or a dict whose t entry is absent or an integer. -/
def countsWF (w : World) (app_id user_id t : String) : Bool :=
  match alookup (docAt w app_id user_id) "feedback_counts" with
  | Option.none => true
  | some (PyVal.dict c) =>
      match alookup c t with
      | Option.none => true
      | some (PyVal.int _) => true
      | _ => false
  | some _ => false

/-!  Concrete inputs used by witnesses and counterexamples. -/

def dt0 : DT := ⟨2026, 1, 2, 3, 4, 5, 0⟩

/-- A benign generative service: any prompt gets a fixed story. -/
def genStory : String → String → Except String String :=
  fun _ _ => Except.ok "A story."

def c1W : World :=
  { store := [(("a1", "u1"), [("preferred_tone", PyVal.str "adventurous")])]
    now := dt0
    getErr := Option.none
    setErr := Option.none
    gen := fun m _ => if m = "gemini-1.5-pro" then Except.ok "Sure thing!" else Except.ok "A story." }

def c2W : World :=
  { store := []
    now := dt0
    getErr := Option.none
    setErr := Option.none
    gen := fun m _ => if m = "gemini-1.5-pro" then Except.ok "Plain text plan." else Except.ok "A story." }

def c2Req : Request :=
  { method := "POST"
    origin := Option.none
    body := some (PyVal.dict
      [("keywords", PyVal.str "a dog"), ("userId", PyVal.str "u1"), ("appId", PyVal.str "a1")]) }

def c2xW : World :=
  { store := []
    now := dt0
    getErr := Option.none
    setErr := Option.none
    gen := fun m _ => if m = "gemini-1.5-pro" then Except.ok "\x7b\x7d" else Except.ok "A story." }

def c3W : World :=
  { store := []
    now := dt0
    getErr := Option.none
    setErr := Option.none
    gen := fun m _ => if m = "gemini-1.5-pro" then
        Except.ok "\x7b\"tone\": \"dark\", \"plot_outline\": \"An outline.\", \"length_in_words\": 150\x7d"
      else Except.ok "A story." }

def c3xW : World :=
  { store := []
    now := dt0
    getErr := Option.none
    setErr := Option.none
    gen := fun m _ => if m = "gemini-1.5-pro" then
        Except.ok "\x7b\"tone\": \"dark\", \"plot_outline\": \"An outline.\", \"length_in_words\": 500\x7d"
      else Except.ok "A story." }

def c3Req : Request :=
  { method := "POST"
    origin := Option.none
    body := some (PyVal.dict
      [("keywords", PyVal.str "space pirates"), ("userId", PyVal.str "u1"), ("appId", PyVal.str "a1")]) }

def c4W : World :=
  { store := [], now := dt0, getErr := Option.none, setErr := Option.none, gen := genStory }

def c4Req : Request :=
  { method := "POST"
    origin := Option.none
    body := some (PyVal.dict [("keywords", PyVal.str "a dog"), ("appId", PyVal.str "a1")]) }

def c4xReq : Request :=
  { method := "POST"
    origin := Option.none
    body := some (PyVal.dict [("keywords", PyVal.int 42)]) }

def c5Req : Request :=
  { method := "POST"
    origin := Option.none
    body := some (PyVal.dict
      [("userId", PyVal.str "u1"), ("appId", PyVal.str "a1"), ("feedbackType", PyVal.str "love")]) }

def c6W : World :=
  { store := [(("a1", "u1"), [("preferred_tone", PyVal.str "dark"), ("last_keywords", PyVal.str "cats")])]
    now := dt0
    getErr := Option.none
    setErr := Option.none
    gen := genStory }

def c6Upd : Doc := [("preferred_tone", PyVal.str "happy"), ("last_plan", PyVal.dict [])]

def c6W2 : World :=
  { c6W with
    store := (storeSet c6W.store "a1" "u1"
      (mergeDoc (docAt c6W "a1" "u1") (alistInsert c6Upd "last_updated" (PyVal.dtNanos dt0)))) }

def c7W : World :=
  { store := [], now := dt0, getErr := some "db down", setErr := Option.none, gen := genStory }

def c10Req : Request :=
  { method := "POST"
    origin := Option.none
    body := some (PyVal.dict
      [("keywords", PyVal.str "  \t "), ("userId", PyVal.str "u1"), ("appId", PyVal.str "a1")]) }

/-!  Association-list and store lemmas. -/

/-- Right-biased lookup: the value of the last binding of k, as a
Python dict literal with duplicate keys would retain. -/
def alookupLast (d : Doc) (k : String) : Option PyVal :=
  match d with
  | [] => Option.none
  | (k2, v2) :: t =>
      match alookupLast t k with
      | some x => some x
      | Option.none => if k2 = k then some v2 else Option.none

/-- Option fallback, spelled out to keep statements elementary. -/
def optOr (a b : Option PyVal) : Option PyVal :=
  match a with
  | some x => some x
  | Option.none => b

theorem alookup_alistInsert (d : Doc) (k v k2) :
    alookup (alistInsert d k v) k2 = if k = k2 then some v else alookup d k2 := by
  induction d with
  | nil =>
      simp only [alistInsert, alookup]
  | cons hd t ih =>
      obtain ⟨k3, v3⟩ := hd
      by_cases h3 : k3 = k
      · subst h3
        simp only [alistInsert, if_pos rfl]
        by_cases h2 : k3 = k2
        · subst h2
          simp [alookup]
        · simp [alookup, h2]
      · simp only [alistInsert, if_neg h3]
        by_cases h2 : k3 = k2
        · subst h2
          have hk : ¬ k = k3 := fun hh => h3 hh.symm
          simp [alookup, hk]
        · simp [alookup, h2, ih]

theorem alookupLast_alistInsert_ne (d : Doc) (k v k2) (h : k ≠ k2) :
    alookupLast (alistInsert d k v) k2 = alookupLast d k2 := by
  induction d with
  | nil =>
      simp [alistInsert, alookupLast, if_neg h]
  | cons hd t ih =>
      obtain ⟨k3, v3⟩ := hd
      by_cases h3 : k3 = k
      · subst h3
        simp only [alistInsert, if_pos rfl, alookupLast]
        cases hx : alookupLast t k2 <;> simp [if_neg h]
      · simp only [alistInsert, if_neg h3, alookupLast, ih]

theorem alookup_eq_none_of_not_mem (d : Doc) (k : String) (h : k ∉ d.map Prod.fst) :
    alookup d k = Option.none := by
  induction d with
  | nil => rfl
  | cons hd t ih =>
      obtain ⟨k2, v2⟩ := hd
      simp only [List.map_cons, List.mem_cons] at h
      push_neg at h
      simp only [alookup, if_neg (fun hh : k2 = k => h.1 hh.symm)]
      exact ih h.2

theorem alookupLast_eq_none_of_not_mem (d : Doc) (k : String) (h : k ∉ d.map Prod.fst) :
    alookupLast d k = Option.none := by
  induction d with
  | nil => rfl
  | cons hd t ih =>
      obtain ⟨k2, v2⟩ := hd
      simp only [List.map_cons, List.mem_cons] at h
      push_neg at h
      simp only [alookupLast, ih h.2, if_neg (fun hh : k2 = k => h.1 hh.symm)]

theorem alookupLast_eq_alookup_of_nodup (d : Doc) (k : String)
    (h : (d.map Prod.fst).Nodup) : alookupLast d k = alookup d k := by
  induction d with
  | nil => rfl
  | cons hd t ih =>
      obtain ⟨k2, v2⟩ := hd
      simp only [List.map_cons, List.nodup_cons] at h
      simp only [alookupLast, alookup, ih h.2]
      by_cases h2 : k2 = k
      · subst h2
        simp [alookup_eq_none_of_not_mem t k2 h.1]
      · rw [if_neg h2, if_neg h2]
        cases hx : alookup t k <;> simp [hx]

theorem alookupLast_alistInsert_self (d : Doc) (k v)
    (h : (d.map Prod.fst).Nodup) :
    alookupLast (alistInsert d k v) k = some v := by
  induction d with
  | nil => simp [alistInsert, alookupLast]
  | cons hd t ih =>
      obtain ⟨k2, v2⟩ := hd
      simp only [List.map_cons, List.nodup_cons] at h
      by_cases h2 : k2 = k
      · subst h2
        simp only [alistInsert, if_pos rfl, alookupLast]
        rw [alookupLast_eq_none_of_not_mem t k2 h.1]
        simp
      · simp only [alistInsert, if_neg h2, alookupLast, ih h.2]

theorem alookup_mergeDoc (new : Doc) : ∀ old : Doc, ∀ k,
    alookup (mergeDoc old new) k = optOr (alookupLast new k) (alookup old k) := by
  induction new with
  | nil => intro old k; simp [mergeDoc, alookupLast, optOr]
  | cons hd t ih =>
      intro old k
      obtain ⟨k2, v2⟩ := hd
      have step : mergeDoc old ((k2, v2) :: t) = mergeDoc (alistInsert old k2 v2) t := rfl
      rw [step, ih]
      simp only [alookupLast, alookup_alistInsert]
      cases hx : alookupLast t k with
      | some x => simp [optOr]
      | none =>
          by_cases h2 : k2 = k
          · subst h2; simp [optOr]
          · simp [optOr, if_neg h2]

theorem storeLookup_storeSet_self (st : Store) (a u : String) (d : Doc) :
    storeLookup (storeSet st a u d) a u = some d := by
  induction st with
  | nil => simp [storeSet, storeLookup]
  | cons hd t ih =>
      obtain ⟨⟨a2, u2⟩, d2⟩ := hd
      simp only [storeSet]
      by_cases h2 : a2 = a ∧ u2 = u
      · rw [if_pos h2]
        simp [storeLookup, h2]
      · rw [if_neg h2]
        simp only [storeLookup, if_neg h2]
        exact ih

theorem dropWhile_all_eq_nil (p : Char → Bool) (l : List Char) (h : l.all p = true) :
    l.dropWhile p = [] := by
  induction l with
  | nil => rfl
  | cons c t ih =>
      simp only [List.all_cons, Bool.and_eq_true] at h
      simp [List.dropWhile, h.1, ih h.2]

theorem pyStrip_of_all_space (s : String) (h : s.data.all isPySpace = true) :
    pyStrip s = "" := by
  simp only [pyStrip, dropWhile_all_eq_nil isPySpace s.data h, List.reverse_nil,
    List.dropWhile_nil]

/-- Unpack the feedback_counts well-formedness bit: the counts value
read by the feedback branch is a dict c, the entry read for t is the
integer countIntAt, and countValAt agrees with lookups in c. -/
theorem countsWF_spec (w : World) (a u t : String) (h : countsWF w a u t = true) :
    ∃ c n, pyDictGet (docAt w a u) "feedback_counts" (PyVal.dict []) = PyVal.dict c ∧
      (alookup c t).getD (PyVal.int 0) = PyVal.int n ∧
      countIntAt w a u t = n ∧
      (∀ t2, countValAt w a u t2 = alookup c t2) := by
  unfold countsWF at h
  cases hx : alookup (docAt w a u) "feedback_counts" with
  | none =>
      refine ⟨[], 0, ?_, rfl, ?_, ?_⟩
      · simp [pyDictGet, hx]
      · simp [countIntAt, countValAt, hx]
      · intro t2
        simp [countValAt, hx, alookup]
  | some v =>
      simp only [hx] at h
      cases v with
      | dict c =>
          cases hy : alookup c t with
          | none =>
              refine ⟨c, 0, ?_, ?_, ?_, ?_⟩
              · simp [pyDictGet, hx]
              · simp [hy]
              · simp [countIntAt, countValAt, hx, hy]
              · intro t2
                simp [countValAt, hx]
          | some x =>
              simp only [hy] at h
              cases x with
              | int n =>
                  refine ⟨c, n, ?_, ?_, ?_, ?_⟩
                  · simp [pyDictGet, hx]
                  · simp [hy]
                  · simp [countIntAt, countValAt, hx, hy]
                  · intro t2
                    simp [countValAt, hx]
              | null => simp at h
              | bool b => simp at h
              | str s => simp at h
              | list xs => simp at h
              | dict fs => simp at h
              | dtNanos d2 => simp at h
              | dt d2 => simp at h
              | obj s => simp at h
      | null => simp at h
      | bool b => simp at h
      | int n => simp at h
      | str s => simp at h
      | list xs => simp at h
      | dtNanos d2 => simp at h
      | dt d2 => simp at h
      | obj s => simp at h

/-- C9: safe_json_dumps never raises (it is a total function to
strings); Firestore timestamps and datetimes are rendered as their ISO
date-time representation (as a JSON string), any other
non-serializable value via its str() text, and serialization is
deterministic, so serializing the same payload twice yields the same
string. -/
theorem safe_serialization_total (d : DT) (p : PyVal) (s : String) :
    safe_json_dumps (PyVal.dtNanos d) = jsonStr d.isoformat ∧
    safe_json_dumps (PyVal.dt d) = jsonStr d.isoformat ∧
    safe_json_dumps (PyVal.obj s) = jsonStr s ∧
    safe_json_dumps p = safe_json_dumps p :=
  ⟨rfl, rfl, rfl, rfl⟩

/-- C8: an OPTIONS request short-circuits: status 204, empty body, the
CORS headers (with Access-Control-Max-Age 3600), an unchanged store,
and no external call, body parsing or validation (empty event trace),
for every body and origin. -/
theorem options_preflight (w : World) (origin : Option String) (body : Option PyVal) :
    generate_story_function w { method := "OPTIONS", origin := origin, body := body } =
      (HResult.resp "" 204 (corsHeaders origin), w, []) ∧
    (corsHeaders origin).allowMethods = "GET, POST, OPTIONS" ∧
    (corsHeaders origin).allowHeaders = "Content-Type, X-Requested-With, Authorization" ∧
    (corsHeaders origin).maxAge = "3600" := by
  refine ⟨rfl, ?_, ?_, ?_⟩ <;>
    · cases origin with
      | none => rfl
      | some o =>
          simp only [corsHeaders]
          split <;> rfl

/-- C1: when the planner text is not parseable as JSON, agent_plan
returns the deterministic fallback plan: tone from the stored
preferred_tone (default neutral), outline "Story based on: " plus the
raw keywords, length 150; in particular, for stored preferences
preferred_tone adventurous and keywords "a lost dog" the plan is
exactly the one the spec displays. -/
theorem agent_plan_fallback_deterministic (w : World) (u a kws t : String) (prefs : Doc)
    (hget : w.getErr = Option.none)
    (hprefs : docAt w a u = prefs)
    (hgen : w.gen "gemini-1.5-pro" (planner_prompt prefs kws) = Except.ok t)
    (hparse : json_loads t = Option.none) :
    (agent_plan w u a kws).1 = Except.ok (fallback_plan prefs kws) ∧
    fallback_plan prefs kws = PyVal.dict
      [("tone", pyDictGet prefs "preferred_tone" (PyVal.str "neutral")),
       ("plot_outline", PyVal.str ("Story based on: " ++ kws)),
       ("length_in_words", PyVal.int 150)] ∧
    (prefs = [("preferred_tone", PyVal.str "adventurous")] → kws = "a lost dog" →
      (agent_plan w u a kws).1 = Except.ok (PyVal.dict
        [("tone", PyVal.str "adventurous"),
         ("plot_outline", PyVal.str "Story based on: a lost dog"),
         ("length_in_words", PyVal.int 150)])) := by
  have hpl : get_user_preferences w u a = Except.ok prefs := by
    unfold get_user_preferences
    rw [hget]
    unfold docAt at hprefs
    rw [hprefs]
  refine ⟨?_, rfl, ?_⟩
  · simp only [agent_plan, hpl, hgen, hparse]
  · intro h1 h2
    subst h1
    subst h2
    simp only [agent_plan, hpl, hgen, hparse]
    rfl

/-- C1 witness: concrete world with a stored adventurous preference
and a non-JSON planner reply. -/
theorem agent_plan_fallback_deterministic_witness :
    (agent_plan c1W "u1" "a1" "a lost dog").1 = Except.ok (PyVal.dict
      [("tone", PyVal.str "adventurous"),
       ("plot_outline", PyVal.str "Story based on: a lost dog"),
       ("length_in_words", PyVal.int 150)]) :=
  (agent_plan_fallback_deterministic c1W "u1" "a1" "a lost dog" "Sure thing!"
    [("preferred_tone", PyVal.str "adventurous")] rfl rfl rfl rfl).2.2 rfl rfl

/-- C2 counterexample: the planner text is an empty JSON object: it
parses, so the fallback is not used, and the executor raises KeyError
on the missing length_in_words field, failing the request with a 500;
the pipeline therefore does fail on account of the shape of some
planner texts. -/
theorem planner_shape_failure_counterexample :
    (generate_story_function c2xW c2Req).1 =
      HResult.resp (errBody "\x27length_in_words\x27") 500 baseHeaders := rfl

/-- C3 counterexample: a planner reply that is valid JSON with
length_in_words 500 is returned unchanged with status 200: the
response plan has length_in_words outside [100, 200], so the claimed
range does not hold for every successful pair of service calls. -/
theorem generation_length_range_counterexample :
    (generate_story_function c3xW c3Req).1 =
      HResult.resp (safe_json_dumps (PyVal.dict
        [("plan", PyVal.dict
          [("tone", PyVal.str "dark"), ("plot_outline", PyVal.str "An outline."),
           ("length_in_words", PyVal.int 500)]),
         ("story", PyVal.str "A story.")])) 200 baseHeaders ∧
    pySubscript (PyVal.dict
        [("tone", PyVal.str "dark"), ("plot_outline", PyVal.str "An outline."),
         ("length_in_words", PyVal.int 500)]) "length_in_words" =
      Except.ok (PyVal.int 500) ∧
    ¬ ((100 : Int) ≤ 500 ∧ (500 : Int) ≤ 200) :=
  ⟨rfl, rfl, by decide⟩

/-- C4 counterexample: a payload without userId whose keywords field
is the integer 42 does not get the Missing userId 400: the handler
raises AttributeError on keywords.strip() before the userId check,
outside its try block, so the exception escapes the handler. -/
theorem missing_userId_crash_counterexample :
    (generate_story_function c4W c4xReq).1 =
      HResult.crash "\x27int\x27 object has no attribute \x27strip\x27" := rfl

/-- C10: a keywords value that is a string of only whitespace is
stripped and then fails the emptiness check exactly like an absent
keywords field: 400 with error "Missing keywords for story
generation", no store or generative call, store unchanged. -/
theorem whitespace_keywords_rejected (w : World) (req : Request) (d : Doc) (ks : String)
    (hm : req.method ≠ "OPTIONS")
    (hbody : req.body = some (PyVal.dict d))
    (hfal : pyFalsy (PyVal.dict d) = false)
    (hkw : pyDictGet d "keywords" (PyVal.str "") = PyVal.str ks)
    (hws : ks.data.all isPySpace = true)
    (huser : pyFalsy (pyDictGet d "userId" PyVal.null) = false)
    (happ : pyFalsy (pyDictGet d "appId" PyVal.null) = false)
    (hfb : pyFalsy (pyDictGet d "feedbackType" PyVal.null) = true) :
    generate_story_function w req =
      (HResult.resp (errBody "Missing keywords for story generation") 400
        (corsHeaders req.origin), w, []) := by
  have hks : pyStrip ks = "" := pyStrip_of_all_space ks hws
  simp [generate_story_function, tryBlock, if_neg hm, hbody, hfal, hkw, huser, happ, hfb, hks,
    errBody]

/-- C10 witness: keywords consisting of spaces and a tab. -/
theorem whitespace_keywords_rejected_witness :
    generate_story_function c4W c10Req =
      (HResult.resp (errBody "Missing keywords for story generation") 400 baseHeaders,
       c4W, []) :=
  whitespace_keywords_rejected c4W c10Req
    [("keywords", PyVal.str "  \t "), ("userId", PyVal.str "u1"), ("appId", PyVal.str "a1")]
    "  \t " (by decide) rfl rfl rfl (by decide) rfl rfl rfl

/-- C4 (amended): for a non-OPTIONS request with a truthy JSON-object
payload whose keywords field, when present, is a string, a missing (or
falsy) userId yields exactly the 400 Missing userId response, and with
a truthy userId a missing (or falsy) appId yields exactly the 400
Missing appId response, in both cases before any external call (empty
event trace, unchanged store).  The restriction on keywords is forced
by the counterexample: a non-string keywords value raises before the
userId check. -/
theorem missing_field_validation (w : World) (req : Request) (d : Doc) (ks : String)
    (hm : req.method ≠ "OPTIONS")
    (hbody : req.body = some (PyVal.dict d))
    (hfal : pyFalsy (PyVal.dict d) = false)
    (hkw : pyDictGet d "keywords" (PyVal.str "") = PyVal.str ks) :
    (pyFalsy (pyDictGet d "userId" PyVal.null) = true →
      generate_story_function w req =
        (HResult.resp (errBody "Missing userId") 400 (corsHeaders req.origin), w, [])) ∧
    (pyFalsy (pyDictGet d "userId" PyVal.null) = false →
      pyFalsy (pyDictGet d "appId" PyVal.null) = true →
      generate_story_function w req =
        (HResult.resp (errBody "Missing appId") 400 (corsHeaders req.origin), w, [])) := by
  constructor
  · intro hu
    simp [generate_story_function, if_neg hm, hbody, hfal, hkw, hu, errBody]
  · intro hu ha
    simp [generate_story_function, if_neg hm, hbody, hfal, hkw, hu, ha, errBody]

/-- C4 witness: a payload with string keywords and appId but no
userId gets the Missing userId 400. -/
theorem missing_field_validation_witness :
    generate_story_function c4W c4Req =
      (HResult.resp (errBody "Missing userId") 400 baseHeaders, c4W, []) :=
  (missing_field_validation c4W c4Req
    [("keywords", PyVal.str "a dog"), ("appId", PyVal.str "a1")] "a dog"
    (by decide) rfl rfl rfl).1 rfl

/-- C7: once field validation has passed, any exception raised inside
the try block (feedback recording, planning, story generation or
persistence) is caught at the top level and turned into a 500 whose
body carries the exception text, with the CORS headers, the try block
events and no retry; no such exception escapes the handler. -/
theorem top_level_exception_guard (w : World) (req : Request) (d : Doc) (ks msg : String)
    (w2 : World) (ev : List Event)
    (hm : req.method ≠ "OPTIONS")
    (hbody : req.body = some (PyVal.dict d))
    (hfal : pyFalsy (PyVal.dict d) = false)
    (hkw : pyDictGet d "keywords" (PyVal.str "") = PyVal.str ks)
    (huser : pyFalsy (pyDictGet d "userId" PyVal.null) = false)
    (happ : pyFalsy (pyDictGet d "appId" PyVal.null) = false)
    (htb : tryBlock w (pyStrip ks) (pyStr (pyDictGet d "userId" PyVal.null))
        (pyStr (pyDictGet d "appId" PyVal.null)) (pyDictGet d "feedbackType" PyVal.null) =
        (Except.error msg, w2, ev)) :
    generate_story_function w req =
      (HResult.resp (errBody msg) 500 (corsHeaders req.origin), w2, ev) := by
  simp [generate_story_function, if_neg hm, hbody, hfal, hkw, huser, happ, htb, errBody]

/-- C7 witness: the Firestore read raises inside the feedback branch
and the handler converts it to a 500 with the exception text. -/
theorem top_level_exception_guard_witness :
    generate_story_function c7W c5Req =
      (HResult.resp (errBody "db down") 500 baseHeaders, c7W, [Event.dbGet "a1" "u1"]) :=
  top_level_exception_guard c7W c5Req
    [("userId", PyVal.str "u1"), ("appId", PyVal.str "a1"), ("feedbackType", PyVal.str "love")]
    "" "db down" c7W [Event.dbGet "a1" "u1"]
    (by decide) rfl rfl rfl rfl rfl rfl

/-- C2 (amended): for every planner text that is not parseable as
JSON, the pipeline does not fail on account of that text: the
deterministic fallback plan replaces it and the request proceeds to
story generation (the executor call appears in the trace) and
succeeds end to end with the well-formed fallback plan.  The
restriction to unparseable texts is forced by the counterexample:
text that parses to JSON lacking the plan fields makes the executor
raise and the request fail with a 500. -/
theorem planner_text_recovery (w : World) (req : Request) (d : Doc) (ks u a t s : String)
    (prefs : Doc)
    (hm : req.method ≠ "OPTIONS")
    (hbody : req.body = some (PyVal.dict d))
    (hfal : pyFalsy (PyVal.dict d) = false)
    (hkw : pyDictGet d "keywords" (PyVal.str "") = PyVal.str ks)
    (huser : pyDictGet d "userId" PyVal.null = PyVal.str u) (hu : u ≠ "")
    (happ : pyDictGet d "appId" PyVal.null = PyVal.str a) (ha : a ≠ "")
    (hfb : pyFalsy (pyDictGet d "feedbackType" PyVal.null) = true)
    (hne : pyStrip ks ≠ "")
    (hget : w.getErr = Option.none) (hset : w.setErr = Option.none)
    (hprefs : docAt w a u = prefs)
    (hplan : w.gen "gemini-1.5-pro" (planner_prompt prefs (pyStrip ks)) = Except.ok t)
    (hparse : json_loads t = Option.none)
    (hexec : w.gen "gemini-1.5-flash"
        (execution_prompt (PyVal.int 150)
          (pyDictGet prefs "preferred_tone" (PyVal.str "neutral"))
          (PyVal.str ("Story based on: " ++ pyStrip ks))) = Except.ok s) :
    (generate_story_function w req).1 =
      HResult.resp (safe_json_dumps (PyVal.dict
        [("plan", fallback_plan prefs (pyStrip ks)), ("story", PyVal.str s)])) 200
        (corsHeaders req.origin) ∧
    (generate_story_function w req).2.2 =
      [Event.dbGet a u, Event.genCall "gemini-1.5-pro", Event.genCall "gemini-1.5-flash",
       Event.dbSet a u] := by
  have hpl : get_user_preferences w u a = Except.ok prefs := by
    unfold get_user_preferences
    rw [hget]
    unfold docAt at hprefs
    rw [hprefs]
  have hap : agent_plan w u a (pyStrip ks) =
      (Except.ok (fallback_plan prefs (pyStrip ks)),
       [Event.dbGet a u, Event.genCall "gemini-1.5-pro"]) := by
    simp only [agent_plan, hpl, hplan, hparse]
  have hfp : fallback_plan prefs (pyStrip ks) = PyVal.dict
      [("tone", pyDictGet prefs "preferred_tone" (PyVal.str "neutral")),
       ("plot_outline", PyVal.str ("Story based on: " ++ pyStrip ks)),
       ("length_in_words", PyVal.int 150)] := rfl
  have hgs : generate_story_from_plan w (PyVal.dict
      [("tone", pyDictGet prefs "preferred_tone" (PyVal.str "neutral")),
       ("plot_outline", PyVal.str ("Story based on: " ++ pyStrip ks)),
       ("length_in_words", PyVal.int 150)]) = (Except.ok s, [Event.genCall "gemini-1.5-flash"]) := by
    simp [generate_story_from_plan, pySubscript, alookup, hexec]
  have hu2 : pyFalsy (PyVal.str u) = false := by simp [pyFalsy, hu]
  have ha2 : pyFalsy (PyVal.str a) = false := by simp [pyFalsy, ha]
  refine ⟨?_, ?_⟩ <;>
    simp [generate_story_function, tryBlock, update_user_preferences, if_neg hm, hbody, hfal,
      hkw, huser, happ, hfb, hne, hap, hfp, hgs, hset, pyStr, hu2, ha2]

/-- C2 witness: plain-text planner reply, empty prior preferences. -/
theorem planner_text_recovery_witness :
    (generate_story_function c2W c2Req).1 =
      HResult.resp (safe_json_dumps (PyVal.dict
        [("plan", fallback_plan [] "a dog"), ("story", PyVal.str "A story.")])) 200
        baseHeaders ∧
    (generate_story_function c2W c2Req).2.2 =
      [Event.dbGet "a1" "u1", Event.genCall "gemini-1.5-pro", Event.genCall "gemini-1.5-flash",
       Event.dbSet "a1" "u1"] :=
  planner_text_recovery c2W c2Req
    [("keywords", PyVal.str "a dog"), ("userId", PyVal.str "u1"), ("appId", PyVal.str "a1")]
    "a dog" "u1" "a1" "Plain text plan." "A story." []
    (by decide) rfl rfl rfl rfl (by decide) rfl (by decide) rfl (by decide) rfl rfl rfl rfl
    rfl rfl

/-- C3 (amended): for the generation branch with no prior preferences
document, when the planning step succeeds with a plan object holding
tone, plot_outline and an integer length_in_words in [100, 200] (the
fallback plan with its fixed 150 included) and the executor returns a
non-empty story, the handler returns 200 with that plan and story, and
the preferences document afterwards holds last_keywords equal to the
stripped keywords, preferred_tone equal to the plan tone (neutral when
the plan has none), a server timestamp, and last_plan equal to the
returned plan.  The range restriction on length_in_words is forced by
the counterexample: the code does not enforce [100, 200]. -/
theorem generation_success_contract (w : World) (req : Request) (d : Doc)
    (ks u a s : String) (pf : Doc) (ev1 : List Event) (tv ov : PyVal) (L : Int)
    (hm : req.method ≠ "OPTIONS")
    (hbody : req.body = some (PyVal.dict d))
    (hfal : pyFalsy (PyVal.dict d) = false)
    (hkw : pyDictGet d "keywords" (PyVal.str "") = PyVal.str ks)
    (huser : pyDictGet d "userId" PyVal.null = PyVal.str u) (hu : u ≠ "")
    (happ : pyDictGet d "appId" PyVal.null = PyVal.str a) (ha : a ≠ "")
    (hfb : pyFalsy (pyDictGet d "feedbackType" PyVal.null) = true)
    (hne : pyStrip ks ≠ "")
    (hset : w.setErr = Option.none)
    (hstore : storeLookup w.store a u = Option.none)
    (hplan : agent_plan w u a (pyStrip ks) = (Except.ok (PyVal.dict pf), ev1))
    (hlen : alookup pf "length_in_words" = some (PyVal.int L))
    (hL1 : 100 ≤ L) (hL2 : L ≤ 200)
    (htone : alookup pf "tone" = some tv)
    (hout : alookup pf "plot_outline" = some ov)
    (hexec : w.gen "gemini-1.5-flash" (execution_prompt (PyVal.int L) tv ov) = Except.ok s)
    (hs : s ≠ "") :
    (generate_story_function w req).1 =
      HResult.resp (safe_json_dumps (PyVal.dict
        [("plan", PyVal.dict pf), ("story", PyVal.str s)])) 200 (corsHeaders req.origin) ∧
    100 ≤ L ∧ L ≤ 200 ∧ s ≠ "" ∧
    alookup (docAt (generate_story_function w req).2.1 a u) "last_keywords" =
      some (PyVal.str (pyStrip ks)) ∧
    alookup (docAt (generate_story_function w req).2.1 a u) "preferred_tone" =
      some (pyDictGet pf "tone" (PyVal.str "neutral")) ∧
    alookup (docAt (generate_story_function w req).2.1 a u) "last_updated" =
      some (PyVal.dtNanos w.now) ∧
    alookup (docAt (generate_story_function w req).2.1 a u) "last_plan" =
      some (PyVal.dict pf) := by
  have hgs : generate_story_from_plan w (PyVal.dict pf) =
      (Except.ok s, [Event.genCall "gemini-1.5-flash"]) := by
    simp [generate_story_from_plan, pySubscript, hlen, htone, hout, hexec]
  have hu2 : pyFalsy (PyVal.str u) = false := by simp [pyFalsy, hu]
  have ha2 : pyFalsy (PyVal.str a) = false := by simp [pyFalsy, ha]
  refine ⟨?_, hL1, hL2, hs, ?_, ?_, ?_, ?_⟩ <;>
    simp [generate_story_function, tryBlock, update_user_preferences, if_neg hm, hbody, hfal,
      hkw, huser, happ, hfb, hne, hplan, hgs, hset, pyStr, hu2, ha2, docAt,
      storeLookup_storeSet_self, hstore, alistInsert, alookup_mergeDoc, alookupLast, alookup,
      optOr]

/-- C3 witness: the end-to-end scenario with keywords space pirates,
no prior document, a parseable in-range plan and a non-empty story. -/
theorem generation_success_contract_witness :
    (generate_story_function c3W c3Req).1 =
      HResult.resp (safe_json_dumps (PyVal.dict
        [("plan", PyVal.dict
          [("tone", PyVal.str "dark"), ("plot_outline", PyVal.str "An outline."),
           ("length_in_words", PyVal.int 150)]),
         ("story", PyVal.str "A story.")])) 200 baseHeaders ∧
    (100 : Int) ≤ 150 ∧ (150 : Int) ≤ 200 ∧ "A story." ≠ "" ∧
    alookup (docAt (generate_story_function c3W c3Req).2.1 "a1" "u1") "last_keywords" =
      some (PyVal.str "space pirates") ∧
    alookup (docAt (generate_story_function c3W c3Req).2.1 "a1" "u1") "preferred_tone" =
      some (PyVal.str "dark") ∧
    alookup (docAt (generate_story_function c3W c3Req).2.1 "a1" "u1") "last_updated" =
      some (PyVal.dtNanos dt0) ∧
    alookup (docAt (generate_story_function c3W c3Req).2.1 "a1" "u1") "last_plan" =
      some (PyVal.dict
        [("tone", PyVal.str "dark"), ("plot_outline", PyVal.str "An outline."),
         ("length_in_words", PyVal.int 150)]) :=
  generation_success_contract c3W c3Req
    [("keywords", PyVal.str "space pirates"), ("userId", PyVal.str "u1"),
     ("appId", PyVal.str "a1")]
    "space pirates" "u1" "a1" "A story."
    [("tone", PyVal.str "dark"), ("plot_outline", PyVal.str "An outline."),
     ("length_in_words", PyVal.int 150)]
    [Event.dbGet "a1" "u1", Event.genCall "gemini-1.5-pro"]
    (PyVal.str "dark") (PyVal.str "An outline.") 150
    (by decide) rfl rfl rfl rfl (by decide) rfl (by decide) rfl (by decide) rfl rfl rfl rfl
    (by decide) (by decide) rfl rfl rfl (by decide)

/-- C6: update_user_preferences merges: every field of the stored
document not named in the update keeps its previous value (apart from
the server-stamped last_updated), named fields take the new values,
last_updated gets the server timestamp, and the document is created
when absent (upsert; the lookup-through-default covers both cases and
the document exists afterwards). -/
theorem preferences_merge_upsert (w : World) (user_id app_id : String) (upd : Doc)
    (w2 : World)
    (hset : w.setErr = Option.none)
    (hnodup : (upd.map Prod.fst).Nodup)
    (hupd : update_user_preferences w user_id app_id upd = Except.ok w2) :
    (∀ f, f ≠ "last_updated" →
      alookup (docAt w2 app_id user_id) f =
        optOr (alookup upd f) (alookup (docAt w app_id user_id) f)) ∧
    alookup (docAt w2 app_id user_id) "last_updated" = some (PyVal.dtNanos w.now) ∧
    (storeLookup w2.store app_id user_id).isSome = true := by
  simp only [update_user_preferences, hset] at hupd
  injection hupd with hupd
  subst hupd
  refine ⟨?_, ?_, ?_⟩
  · intro f hf
    simp only [docAt, storeLookup_storeSet_self, Option.getD_some]
    rw [alookup_mergeDoc,
      alookupLast_alistInsert_ne upd "last_updated" (PyVal.dtNanos w.now) f (Ne.symm hf),
      alookupLast_eq_alookup_of_nodup upd f hnodup]
  · simp only [docAt, storeLookup_storeSet_self, Option.getD_some]
    rw [alookup_mergeDoc,
      alookupLast_alistInsert_self upd "last_updated" (PyVal.dtNanos w.now) hnodup]
    rfl
  · simp [storeLookup_storeSet_self]

/-- C6 witness: a two-field update against a stored two-field
document; the untouched last_keywords field persists and last_updated
is stamped. -/
theorem preferences_merge_upsert_witness :
    alookup (docAt c6W2 "a1" "u1") "last_keywords" =
      optOr (alookup c6Upd "last_keywords") (alookup (docAt c6W "a1" "u1") "last_keywords") ∧
    alookup (docAt c6W2 "a1" "u1") "preferred_tone" =
      optOr (alookup c6Upd "preferred_tone") (alookup (docAt c6W "a1" "u1") "preferred_tone") ∧
    alookup (docAt c6W2 "a1" "u1") "last_updated" = some (PyVal.dtNanos dt0) :=
  ⟨(preferences_merge_upsert c6W "u1" "a1" c6Upd c6W2 rfl (by decide) rfl).1
      "last_keywords" (by decide),
   (preferences_merge_upsert c6W "u1" "a1" c6Upd c6W2 rfl (by decide) rfl).1
      "preferred_tone" (by decide),
   (preferences_merge_upsert c6W "u1" "a1" c6Upd c6W2 rfl (by decide) rfl).2.1⟩

/-- One feedback request: 200 with the confirmation message, exactly
one store read and one store write and no generative call, the count
for t incremented by one, every other count entry untouched, and the
world invariants preserved. -/
theorem feedback_step (w : World) (req : Request) (d : Doc) (ks u a t : String)
    (hm : req.method ≠ "OPTIONS")
    (hbody : req.body = some (PyVal.dict d))
    (hfal : pyFalsy (PyVal.dict d) = false)
    (hkw : pyDictGet d "keywords" (PyVal.str "") = PyVal.str ks)
    (huser : pyDictGet d "userId" PyVal.null = PyVal.str u) (hu : u ≠ "")
    (happ : pyDictGet d "appId" PyVal.null = PyVal.str a) (ha : a ≠ "")
    (hfb : pyDictGet d "feedbackType" PyVal.null = PyVal.str t) (ht : t ≠ "")
    (hget : w.getErr = Option.none) (hset : w.setErr = Option.none)
    (hwf : countsWF w a u t = true) :
    (generate_story_function w req).1 =
      HResult.resp (safe_json_dumps (PyVal.dict
        [("message", PyVal.str ("Feedback " ++ t ++ " processed."))])) 200
        (corsHeaders req.origin) ∧
    (generate_story_function w req).2.2 = [Event.dbGet a u, Event.dbSet a u] ∧
    countIntAt (generate_story_function w req).2.1 a u t = countIntAt w a u t + 1 ∧
    (∀ t2, t2 ≠ t →
      countValAt (generate_story_function w req).2.1 a u t2 = countValAt w a u t2) ∧
    (generate_story_function w req).2.1.getErr = Option.none ∧
    (generate_story_function w req).2.1.setErr = Option.none ∧
    countsWF (generate_story_function w req).2.1 a u t = true := by
  obtain ⟨c, n, hc, hn, hci, hcv⟩ := countsWF_spec w a u t hwf
  unfold docAt at hc
  have hu2 : pyFalsy (PyVal.str u) = false := by simp [pyFalsy, hu]
  have ha2 : pyFalsy (PyVal.str a) = false := by simp [pyFalsy, ha]
  have ht2 : pyFalsy (PyVal.str t) = false := by simp [pyFalsy, ht]
  have hpl : get_user_preferences w u a = Except.ok ((storeLookup w.store a u).getD []) := by
    unfold get_user_preferences
    rw [hget]
  have htb : tryBlock w (pyStrip ks) u a (PyVal.str t) =
      (Except.ok (PyVal.dict [("message", PyVal.str ("Feedback " ++ t ++ " processed."))], 200),
       { w with store := (storeSet w.store a u
           (mergeDoc ((storeLookup w.store a u).getD [])
             (alistInsert [("feedback_counts", PyVal.dict (alistInsert c t (PyVal.int (n + 1))))]
               "last_updated" (PyVal.dtNanos w.now)))) },
       [Event.dbGet a u, Event.dbSet a u]) := by
    simp [tryBlock, ht2, hpl, hc, hn, update_user_preferences, hset, pyPlusOne]
  have hgsf : generate_story_function w req =
      (HResult.resp (safe_json_dumps (PyVal.dict
         [("message", PyVal.str ("Feedback " ++ t ++ " processed."))])) 200
         (corsHeaders req.origin),
       { w with store := (storeSet w.store a u
           (mergeDoc ((storeLookup w.store a u).getD [])
             (alistInsert [("feedback_counts", PyVal.dict (alistInsert c t (PyVal.int (n + 1))))]
               "last_updated" (PyVal.dtNanos w.now)))) },
       [Event.dbGet a u, Event.dbSet a u]) := by
    simp [generate_story_function, if_neg hm, hbody, hfal, hkw, huser, happ, hfb, pyStr,
      hu2, ha2, htb]
  have hdoc2 : docAt (generate_story_function w req).2.1 a u =
      mergeDoc ((storeLookup w.store a u).getD [])
        (alistInsert [("feedback_counts", PyVal.dict (alistInsert c t (PyVal.int (n + 1))))]
          "last_updated" (PyVal.dtNanos w.now)) := by
    rw [hgsf]
    simp [docAt, storeLookup_storeSet_self]
  have hfc2 : alookup (docAt (generate_story_function w req).2.1 a u) "feedback_counts" =
      some (PyVal.dict (alistInsert c t (PyVal.int (n + 1)))) := by
    rw [hdoc2, alookup_mergeDoc,
      alookupLast_alistInsert_ne _ "last_updated" _ "feedback_counts" (by decide)]
    simp [alookupLast, optOr]
  have hcnt : ∀ t2, countValAt (generate_story_function w req).2.1 a u t2 =
      alookup (alistInsert c t (PyVal.int (n + 1))) t2 := by
    intro t2
    unfold countValAt
    rw [hfc2]
  refine ⟨?_, ?_, ?_, ?_, ?_, ?_, ?_⟩
  · rw [hgsf]
  · rw [hgsf]
  · rw [hci]
    unfold countIntAt
    rw [hcnt t, alookup_alistInsert]
    simp
  · intro t2 ht3
    rw [hcnt t2, alookup_alistInsert, if_neg (fun hh => ht3 hh.symm), hcv t2]
  · rw [hgsf]
    exact hget
  · rw [hgsf]
    exact hset
  · unfold countsWF
    simp only [hfc2]
    rw [alookup_alistInsert]
    simp

/-- N sequential feedback requests add exactly N to the stored count
for t and leave every other count entry unchanged. -/
theorem feedback_runN (req : Request) (d : Doc) (ks u a t : String)
    (hm : req.method ≠ "OPTIONS")
    (hbody : req.body = some (PyVal.dict d))
    (hfal : pyFalsy (PyVal.dict d) = false)
    (hkw : pyDictGet d "keywords" (PyVal.str "") = PyVal.str ks)
    (huser : pyDictGet d "userId" PyVal.null = PyVal.str u) (hu : u ≠ "")
    (happ : pyDictGet d "appId" PyVal.null = PyVal.str a) (ha : a ≠ "")
    (hfb : pyDictGet d "feedbackType" PyVal.null = PyVal.str t) (ht : t ≠ "") :
    ∀ (N : Nat) (w : World), w.getErr = Option.none → w.setErr = Option.none →
      countsWF w a u t = true →
      countIntAt (runN req N w) a u t = countIntAt w a u t + N ∧
      (∀ t2, t2 ≠ t → countValAt (runN req N w) a u t2 = countValAt w a u t2) := by
  intro N
  induction N with
  | zero =>
      intro w hget hset hwf
      constructor
      · simp [runN]
      · intro t2 ht2
        simp [runN]
  | succ N ih =>
      intro w hget hset hwf
      obtain ⟨h1, h2, h3, h4, h5, h6, h7⟩ :=
        feedback_step w req d ks u a t hm hbody hfal hkw huser hu happ ha hfb ht hget hset hwf
      have hrec := ih (generate_story_function w req).2.1 h5 h6 h7
      have hstep : runN req (N + 1) w = runN req N (generate_story_function w req).2.1 := rfl
      constructor
      · rw [hstep, hrec.1, h3]
        push_cast
        ring
      · intro t2 ht2
        rw [hstep, hrec.2 t2 ht2, h4 t2 ht2]

/-- C5: a request carrying a non-empty feedbackType t skips story
generation (its trace is exactly one store read and one store write,
no generative call), returns 200 with the message "Feedback t
processed.", and executed sequentially N times increases the stored
feedback_counts entry for t by exactly N (absent read as 0) while
every other feedback type keeps its stored value. -/
theorem feedback_counting (w : World) (req : Request) (d : Doc) (ks u a t : String) (N : Nat)
    (hm : req.method ≠ "OPTIONS")
    (hbody : req.body = some (PyVal.dict d))
    (hfal : pyFalsy (PyVal.dict d) = false)
    (hkw : pyDictGet d "keywords" (PyVal.str "") = PyVal.str ks)
    (huser : pyDictGet d "userId" PyVal.null = PyVal.str u) (hu : u ≠ "")
    (happ : pyDictGet d "appId" PyVal.null = PyVal.str a) (ha : a ≠ "")
    (hfb : pyDictGet d "feedbackType" PyVal.null = PyVal.str t) (ht : t ≠ "")
    (hget : w.getErr = Option.none) (hset : w.setErr = Option.none)
    (hwf : countsWF w a u t = true) :
    (generate_story_function w req).1 =
      HResult.resp (safe_json_dumps (PyVal.dict
        [("message", PyVal.str ("Feedback " ++ t ++ " processed."))])) 200
        (corsHeaders req.origin) ∧
    (generate_story_function w req).2.2 = [Event.dbGet a u, Event.dbSet a u] ∧
    countIntAt (runN req N w) a u t = countIntAt w a u t + N ∧
    (∀ t2, t2 ≠ t → countValAt (runN req N w) a u t2 = countValAt w a u t2) := by
  obtain ⟨h1, h2, _⟩ :=
    feedback_step w req d ks u a t hm hbody hfal hkw huser hu happ ha hfb ht hget hset hwf
  have hr := feedback_runN req d ks u a t hm hbody hfal hkw huser hu happ ha hfb ht N w
    hget hset hwf
  exact ⟨h1, h2, hr.1, hr.2⟩

/-- C5 witness: two love feedback requests against an empty store end
with a stored count of 2, each returning 200 with the message and
performing no generative call. -/
theorem feedback_counting_witness :
    (generate_story_function c4W c5Req).1 =
      HResult.resp (safe_json_dumps (PyVal.dict
        [("message", PyVal.str "Feedback love processed.")])) 200 baseHeaders ∧
    (generate_story_function c4W c5Req).2.2 = [Event.dbGet "a1" "u1", Event.dbSet "a1" "u1"] ∧
    countIntAt (runN c5Req 2 c4W) "a1" "u1" "love" = countIntAt c4W "a1" "u1" "love" + 2 := by
  have h := feedback_counting c4W c5Req
    [("userId", PyVal.str "u1"), ("appId", PyVal.str "a1"), ("feedbackType", PyVal.str "love")]
    "" "u1" "a1" "love" 2
    (by decide) rfl rfl rfl rfl (by decide) rfl (by decide) rfl (by decide) rfl rfl rfl
  exact ⟨h.1, h.2.1, h.2.2.1⟩
